import Mathlib

/-!
Verification development for the deepagent research-orchestration core.

The TypeScript source is shallowly embedded: JavaScript numbers are
modelled as exact rationals (`ℚ`), nullable values as `Option`, thrown
exceptions as explicit error outcomes, and the database rows touched by
the orchestrator as plain structures.  Only the fields that the verified
logic reads or writes are modelled; fields the core never consults
(timestamps, raw scraped payloads, identifiers of unrelated tables) are
omitted.
-/

namespace Deepagent

/-- Model of the JavaScript function Math.round: round half toward
positive infinity, i.e. the floor of the argument plus one half. -/
def jsRound (q : ℚ) : ℚ := ((⌊q + 1/2⌋ : ℤ) : ℚ)

/-! ## Agent result shapes (src/server/agents)

Each agent returns a result object; the fuser reads only a handful of
its fields, which are the ones modelled here. -/

/-- Status literal of WebsiteAnalysisResult.status in website-analyst.ts. -/
inductive WebsiteStatus : Type
  | live
  | down
  | redirect
  | error
deriving DecidableEq, Repr

/-- Embedded fragment of the optional contactInfo object of
WebsiteAnalysisResult: the two lists whose lengths the fuser tests.
Absent lists are modelled as empty lists, which the truthiness tests of
the source cannot distinguish from missing ones. -/
structure ContactInfo : Type where
  emails : List String
  phones : List String
deriving DecidableEq, Repr

/-- Embedded fragment of WebsiteAnalysisResult (website-analyst.ts):
status, the optional contact block, and the confidence score. -/
structure WebsiteAnalysisResult : Type where
  status : WebsiteStatus
  contactInfo : Option ContactInfo
  confidenceScore : ℚ
deriving DecidableEq, Repr

/-- Embedded fragment of SocialProfile (social-hunter.ts): the platform
name and the per-platform confidence score. -/
structure SocialProfile : Type where
  platform : String
  confidenceScore : ℚ
deriving DecidableEq, Repr

/-- Embedded fragment of SocialHuntResult (social-hunter.ts). -/
structure SocialHuntResult : Type where
  platforms : List SocialProfile
  socialPresenceScore : ℚ
deriving DecidableEq, Repr

/-- Embedded fragment of NewsReputationResult (news-aggregator.ts). -/
structure NewsReputationResult : Type where
  totalMentions : ℕ
  reputationScore : ℚ
deriving DecidableEq, Repr

/-- Embedded fragment of MarketingOpportunity (business-analyzer.ts);
the fuser only counts opportunities, so only the title is kept. -/
structure MarketingOpportunity : Type where
  title : String
deriving DecidableEq, Repr

/-- Embedded fragment of BusinessAnalysisResult (business-analyzer.ts). -/
structure BusinessAnalysisResult : Type where
  digitalMaturityScore : ℚ
  opportunities : List MarketingOpportunity
deriving DecidableEq, Repr

/-- Embedding of the ComprehensiveIntelligence interface of
src/server/orchestrator/index.ts. -/
structure ComprehensiveIntelligence : Type where
  companyId : String
  companyName : String
  websiteData : Option WebsiteAnalysisResult
  socialData : Option SocialHuntResult
  newsData : Option NewsReputationResult
  businessData : Option BusinessAnalysisResult
  digitalMaturityScore : ℚ
  socialPresenceScore : ℚ
  reputationScore : ℚ
  opportunityScore : ℚ
  completenessScore : ℚ
  confidenceScore : ℚ
  dataGaps : List String
deriving DecidableEq, Repr

/-! ## Intelligence fuser (src/server/orchestrator/index.ts) -/

/-- The weights record declared at the top of calculateCompleteness. -/
structure CompletenessWeights : Type where
  website : ℚ
  social : ℚ
  news : ℚ
  business : ℚ
  contactInfo : ℚ
  socialProfiles : ℚ

/-- The literal weights used by calculateCompleteness. -/
def completenessWeights : CompletenessWeights :=
  { website := 30, social := 20, news := 15, business := 15
    contactInfo := 10, socialProfiles := 10 }

/-- Truthiness of intel.websiteData?.status === live. -/
def websiteIsLive (intel : ComprehensiveIntelligence) : Bool :=
  match intel.websiteData with
  | some w => w.status == WebsiteStatus.live
  | none => false

/-- Truthiness of intel.socialData && intel.socialData.platforms.length > 0. -/
def hasSocialPlatform (intel : ComprehensiveIntelligence) : Bool :=
  match intel.socialData with
  | some s => decide (0 < s.platforms.length)
  | none => false

/-- Truthiness of intel.newsData && intel.newsData.totalMentions > 0. -/
def hasNewsMention (intel : ComprehensiveIntelligence) : Bool :=
  match intel.newsData with
  | some n => decide (0 < n.totalMentions)
  | none => false

/-- Truthiness of intel.businessData && intel.businessData.opportunities.length > 0. -/
def hasOpportunity (intel : ComprehensiveIntelligence) : Bool :=
  match intel.businessData with
  | some b => decide (0 < b.opportunities.length)
  | none => false

/-- Truthiness of intel.websiteData?.contactInfo?.emails?.length ||
intel.websiteData?.contactInfo?.phones?.length. -/
def hasContactInfo (intel : ComprehensiveIntelligence) : Bool :=
  match intel.websiteData with
  | some w =>
    match w.contactInfo with
    | some c => decide (0 < c.emails.length) || decide (0 < c.phones.length)
    | none => false
  | none => false

/-- Truthiness of intel.socialData && intel.socialData.platforms.length >= 2. -/
def hasTwoSocialProfiles (intel : ComprehensiveIntelligence) : Bool :=
  match intel.socialData with
  | some s => decide (2 ≤ s.platforms.length)
  | none => false

/-- Embedding of calculateCompleteness (orchestrator/index.ts lines
91 to 136): a score accumulated criterion by criterion, mirroring the
sequence of if statements of the source. -/
def calculateCompleteness (intel : ComprehensiveIntelligence) : ℚ :=
  let score : ℚ := 0
  let score := if websiteIsLive intel then score + completenessWeights.website else score
  let score := if hasSocialPlatform intel then score + completenessWeights.social else score
  let score := if hasNewsMention intel then score + completenessWeights.news else score
  let score := if hasOpportunity intel then score + completenessWeights.business else score
  let score := if hasContactInfo intel then score + completenessWeights.contactInfo else score
  let score := if hasTwoSocialProfiles intel then score + completenessWeights.socialProfiles else score
  score

/-- Model of the JavaScript idiom value || 0 applied to a nullable
number: null and 0 both yield 0, hence Option.getD. -/
def orZero (x : Option ℚ) : ℚ := x.getD 0

/-- Model of the JavaScript idiom length || 1 applied to the nullable
platform count: null yields 1, and a zero count also yields 1. -/
def lengthOr1 (x : Option ℕ) : ℕ :=
  match x with
  | some n => if n = 0 then 1 else n
  | none => 1

/-- Embedding of the confidence-score expression of executeResearch
(orchestrator/index.ts lines 274 to 280): Math.round of the website
confidence halved, plus the summed platform confidences divided by the
guarded platform count and by 4, plus 25. -/
def computeConfidenceScore (websiteData : Option WebsiteAnalysisResult)
    (socialData : Option SocialHuntResult) : ℚ :=
  jsRound
    (orZero (websiteData.map (fun w => w.confidenceScore)) / 2
      + orZero (socialData.map (fun s => (s.platforms.map (fun p => p.confidenceScore)).sum))
          / (lengthOr1 (socialData.map (fun s => s.platforms.length)) : ℚ)
          / 4
      + 25)

/-- Modelled from the spec's words on the confidence score, for
comparison with computeConfidenceScore: round of websiteConfidence/2
plus a quarter of the mean per-platform social confidence plus 25,
where the social term uses 0 if no platforms were found. -/
def specConfidenceScore (websiteConfidence : ℚ) (platformConfidences : List ℚ) : ℚ :=
  let socialMean : ℚ :=
    if platformConfidences.length = 0 then 0
    else platformConfidences.sum / (platformConfidences.length : ℚ)
  jsRound (websiteConfidence / 2 + socialMean / 4 + 25)

/-! ## Evolution engine: source reliability (src/server/evolution/index.ts) -/

/-- Embedded fragment of the sourceConfig row read and written by
updateSourceMetrics. -/
structure SourceConfig : Type where
  sourceName : String
  isEnabled : Bool
  priority : ℚ
  successRate : ℚ
  avgQualityScore : ℚ
  avgDurationMs : ℚ
  requestsPerMinute : ℚ
  delayBetweenMs : ℚ
  dailyLimit : ℚ
  currentDailyUsage : ℚ
deriving DecidableEq, Repr

/-- Embedding of updateSourceMetrics (evolution/index.ts): given the
existing row if any, produce the row as stored after the update.  The
update branch applies the smoothed success-rate formula, the guarded
two-point averages, recomputes isEnabled from the new rate, and
increments the daily usage; the create branch seeds a fresh row with
isEnabled set to true unconditionally, successRate 100 or 0, and the
JavaScript defaulting idioms qualityScore || 50 and durationMs || 0. -/
def updateSourceMetrics (existing : Option SourceConfig) (sourceName : String)
    (success : Bool) (durationMs : ℚ) (qualityScore : ℚ) : SourceConfig :=
  match existing with
  | some e =>
    let newSuccessRate : ℚ :=
      if success then min 100 (e.successRate + (100 - e.successRate) * 0.1)
      else max 0 (e.successRate - 10)
    let newAvgDuration : ℚ :=
      if success && decide (0 < durationMs) then jsRound ((e.avgDurationMs + durationMs) / 2)
      else e.avgDurationMs
    let newAvgQuality : ℚ :=
      if success && decide (0 < qualityScore) then (e.avgQualityScore + qualityScore) / 2
      else e.avgQualityScore
    { e with
      successRate := newSuccessRate
      avgDurationMs := newAvgDuration
      avgQualityScore := newAvgQuality
      isEnabled := decide (20 < newSuccessRate)
      currentDailyUsage := e.currentDailyUsage + 1 }
  | none =>
    { sourceName := sourceName
      isEnabled := true
      priority := 5
      successRate := if success then 100 else 0
      avgQualityScore := if qualityScore = 0 then 50 else qualityScore
      avgDurationMs := if durationMs = 0 then 0 else durationMs
      requestsPerMinute := 10
      delayBetweenMs := 6000
      dailyLimit := 500
      currentDailyUsage := 0 }

/-- Iterated success events against an existing row: n successive calls
of updateSourceMetrics with success true, each feeding the row the
previous call stored. -/
def iterateSuccess (sourceName : String) (durationMs qualityScore : ℚ) :
    ℕ → SourceConfig → SourceConfig
  | 0, e => e
  | n + 1, e =>
    updateSourceMetrics (some (iterateSuccess sourceName durationMs qualityScore n e))
      sourceName true durationMs qualityScore

/-! ## Evolution engine: event log and insights -/

/-- The EventTypes constants of evolution/index.ts, matching the Prisma
schema. -/
inductive EventType : Type
  | sourceSuccess
  | sourceFailure
  | researchComplete
  | adaptationApplied
deriving DecidableEq, Repr

/-- Embedded fragment of an evolutionLog row: the fields written by the
three logging functions and read by analyzeLearningInsights.  Absent
columns are none. -/
structure EvolutionLog : Type where
  eventType : EventType
  source : Option String := none
  companyId : Option String := none
  durationMs : Option ℚ := none
  dataQualityScore : Option ℚ := none
  completenessScore : Option ℚ := none
  sourcesUsed : List String := []
  sourcesFailed : List String := []
  gaps : List String := []
deriving DecidableEq, Repr

/-- Embedding of the event record created by logResearchComplete
(evolution/index.ts lines 307 to 330): eventType RESEARCH_COMPLETE with
the company id, completeness score and the three string lists; no
duration and no quality score are written. -/
def logResearchComplete (companyId : String) (completenessScore : ℚ)
    (sourcesUsed sourcesFailed gaps : List String) : EvolutionLog :=
  { eventType := EventType.researchComplete
    companyId := some companyId
    completenessScore := some completenessScore
    sourcesUsed := sourcesUsed
    sourcesFailed := sourcesFailed
    gaps := gaps }

/-- The qualityTrend literals of LearningInsights. -/
inductive Trend : Type
  | improving
  | declining
  | stable
deriving DecidableEq, Repr

/-- Embedding of the LearningInsights interface of evolution/index.ts. -/
structure LearningInsights : Type where
  topSources : List String
  problematicSources : List String
  avgProcessingTime : ℚ
  qualityTrend : Trend
  recommendations : List String
deriving DecidableEq, Repr

/-- The query for recent completions inside analyzeLearningInsights:
RESEARCH_COMPLETE events, most recent first, take 20.  The log list is
given most-recent-first, mirroring orderBy timestamp descending. -/
def recentCompleteLogs (logs : List EvolutionLog) : List EvolutionLog :=
  (logs.filter (fun l => l.eventType == EventType.researchComplete)).take 20

/-- The recommendation string built from the problematic sources list. -/
def reviewRecommendation (problematicSources : List String) : String :=
  "Consider reviewing: " ++ String.intercalate ", " problematicSources

/-- The recommendation string for a declining quality trend. -/
def decliningRecommendation : String :=
  "Research quality is declining. Review agent configurations."

/-- The recommendation string for high average processing time. -/
def processingTimeRecommendation : String :=
  "Processing time is high. Consider optimizing parallel execution."

/-- The mean completeness of a window of completion events, with null
scores defaulted to 0: the reduce-then-divide expression of the trend
block of analyzeLearningInsights. -/
def windowMean (w : List EvolutionLog) : ℚ :=
  (w.map (fun r => r.completenessScore.getD 0)).sum / (w.length : ℚ)

/-- The average-processing-time block of analyzeLearningInsights (lines
465 to 478), applied to the recent-completions query result: Math.round
of summed durations (null defaulted to 0) over the event count, in
seconds; 0 when there are no events. -/
def avgProcessingTimeOf (recentLogs : List EvolutionLog) : ℚ :=
  if 0 < recentLogs.length then
    jsRound ((recentLogs.map (fun l => l.durationMs.getD 0)).sum / (recentLogs.length : ℚ) / 1000)
  else 0

/-- The quality-trend block of analyzeLearningInsights (lines 480 to
506), applied to the recent-completions query result: when at least 10
events exist, compare the mean completeness of slices [0,10) and
[10,20); the second mean falls back to the first when the second slice
is empty. -/
def qualityTrendOf (recentLogs : List EvolutionLog) : Trend :=
  if 10 ≤ recentLogs.length then
    let firstHalf := recentLogs.take 10
    let secondHalf := (recentLogs.drop 10).take 10
    let firstAvg := windowMean firstHalf
    let secondAvg := if 0 < secondHalf.length then windowMean secondHalf else firstAvg
    if secondAvg + 5 < firstAvg then Trend.improving
    else if firstAvg < secondAvg - 5 then Trend.declining
    else Trend.stable
  else Trend.stable

/-- Embedding of analyzeLearningInsights (evolution/index.ts lines 439
to 531).  Inputs are the stored sourceConfig rows (in storage order; the
two source queries sort them) and the event log most-recent-first. -/
def analyzeLearningInsights (sources : List SourceConfig)
    (logs : List EvolutionLog) : LearningInsights :=
  let topSources :=
    (((sources.filter (fun s => s.isEnabled && decide (70 ≤ s.successRate))).mergeSort
        (fun a b => b.successRate ≤ a.successRate)).take 5).map
      (fun s => s.sourceName)
  let problematicSources :=
    (((sources.filter (fun s => decide (s.successRate < 50))).mergeSort
        (fun a b => a.successRate ≤ b.successRate)).take 5).map
      (fun s => s.sourceName)
  let recentLogs := recentCompleteLogs logs
  let avgProcessingTime : ℚ := avgProcessingTimeOf recentLogs
  let qualityTrend : Trend := qualityTrendOf recentLogs
  let recommendations :=
    (if 0 < problematicSources.length then [reviewRecommendation problematicSources] else [])
      ++ (if qualityTrend = Trend.declining then [decliningRecommendation] else [])
      ++ (if 300 < avgProcessingTime then [processingTimeRecommendation] else [])
  { topSources := topSources
    problematicSources := problematicSources
    avgProcessingTime := avgProcessingTime
    qualityTrend := qualityTrend
    recommendations := recommendations }

/-! ## Job, company and result rows (Prisma schema fragments) -/

/-- Status values of a researchJob row. -/
inductive JobStatus : Type
  | pending
  | queued
  | running
  | completed
  | failed
  | cancelled
deriving DecidableEq, Repr

/-- Status values of a company row (the mirrored coarse status). -/
inductive CompanyStatus : Type
  | pending
  | queued
  | researching
  | completed
  | failed
deriving DecidableEq, Repr

/-- Embedded fragment of a researchJob row. -/
structure JobRecord : Type where
  id : String
  companyId : String
  status : JobStatus
  progress : ℚ
  errorMessage : Option String
deriving DecidableEq, Repr

/-- Embedded fragment of a company row. -/
structure CompanyRecord : Type where
  id : String
  companyName : String
  website : Option String
  phone : Option String
  address : Option String
  status : CompanyStatus
deriving DecidableEq, Repr

/-- Embedded fragment of a researchResult row as written by the upsert
in executeResearch. -/
structure ResearchResultRecord : Type where
  companyId : String
  completenessScore : ℚ
  confidenceScore : ℚ
  qualityScore : ℚ
  mergedIntelligence : ComprehensiveIntelligence
  dataGaps : List String
deriving DecidableEq, Repr

/-- The slice of the database one research job touches: its job row, its
company row, and the company's researchResult row if present. -/
structure Db : Type where
  job : JobRecord
  company : CompanyRecord
  researchResult : Option ResearchResultRecord
deriving DecidableEq, Repr

/-! ## Cancel route (src/server/routes/research.ts, POST /:id/cancel) -/

/-- Response of the cancel route: success, or the 400 rejection carrying
the error string. -/
inductive CancelOutcome : Type
  | success
  | rejected (error : String)
deriving DecidableEq, Repr

/-- Embedding of the cancel handler body once the job row is found
(research.ts lines 232 to 266): statuses outside PENDING, QUEUED,
RUNNING are rejected with a 400 error and nothing is written; otherwise
the job is set CANCELLED and the company set PENDING. -/
def cancelResearchJob (db : Db) : Db × CancelOutcome :=
  if !([JobStatus.pending, JobStatus.queued, JobStatus.running].contains db.job.status) then
    (db, CancelOutcome.rejected "Job cannot be cancelled")
  else
    ({ db with
        job := { db.job with status := JobStatus.cancelled }
        company := { db.company with status := CompanyStatus.pending } },
      CancelOutcome.success)

/-! ## The orchestrator pipeline (executeResearch) -/

/-- Truthiness of intel.websiteData?.contactInfo?.emails?.length, used
by the email gap test. -/
def hasEmailContact (intel : ComprehensiveIntelligence) : Bool :=
  match intel.websiteData with
  | some w =>
    match w.contactInfo with
    | some c => decide (0 < c.emails.length)
    | none => false
  | none => false

/-- Truthiness of intel.socialData?.platforms.find on platform equal to
the linkedin literal. -/
def hasLinkedinProfile (intel : ComprehensiveIntelligence) : Bool :=
  match intel.socialData with
  | some s => s.platforms.any (fun p => p.platform == "linkedin")
  | none => false

/-- Embedding of identifyDataGaps (orchestrator/index.ts lines 141 to
165): the five fixed gap strings pushed in source order. -/
def identifyDataGaps (intel : ComprehensiveIntelligence) : List String :=
  (if websiteIsLive intel then [] else ["Website not accessible"])
    ++ (if hasEmailContact intel then [] else ["No email found"])
    ++ (if hasSocialPlatform intel then [] else ["No social profiles found"])
    ++ (if hasLinkedinProfile intel then [] else ["LinkedIn profile not found"])
    ++ (if hasNewsMention intel then [] else ["No news coverage found"])

/-- Model of the JavaScript idiom value || 50 applied to the nullable
reputation score: null and 0 both yield 50. -/
def orFifty (x : Option ℚ) : ℚ :=
  match x with
  | some v => if v = 0 then 50 else v
  | none => 50

/-- The intel object as initialised at the start of executeResearch
(orchestrator/index.ts lines 199 to 214): all stage outputs null, all
scores zero, no gaps. -/
def initialIntel (company : CompanyRecord) : ComprehensiveIntelligence :=
  { companyId := company.id
    companyName := company.companyName
    websiteData := none
    socialData := none
    newsData := none
    businessData := none
    digitalMaturityScore := 0
    socialPresenceScore := 0
    reputationScore := 0
    opportunityScore := 0
    completenessScore := 0
    confidenceScore := 0
    dataGaps := [] }

/-- The final score computation of executeResearch (orchestrator
lines 265 to 282), applied after all four stage outputs are stored:
derived sub-scores with their JavaScript defaulting idioms, then
completeness, confidence and gaps, each a function of the stage-output
fields only. -/
def finalizeIntel (intel : ComprehensiveIntelligence) : ComprehensiveIntelligence :=
  { intel with
    digitalMaturityScore := orZero (intel.businessData.map (fun b => b.digitalMaturityScore))
    socialPresenceScore := orZero (intel.socialData.map (fun s => s.socialPresenceScore))
    reputationScore := orFifty (intel.newsData.map (fun n => n.reputationScore))
    opportunityScore :=
      match intel.businessData with
      | some b =>
        if b.opportunities.length = 0 then 0
        else min ((b.opportunities.length : ℚ) * 15) 100
      | none => 0
    completenessScore := calculateCompleteness intel
    confidenceScore := computeConfidenceScore intel.websiteData intel.socialData
    dataGaps := identifyDataGaps intel }

/-- The researchResult row the upsert writes (orchestrator lines 285 to
329): completeness, confidence, quality equal to completeness, the
merged intelligence and the gap list. -/
def mkResearchResultRecord (companyId : String)
    (intel : ComprehensiveIntelligence) : ResearchResultRecord :=
  { companyId := companyId
    completenessScore := intel.completenessScore
    confidenceScore := intel.confidenceScore
    qualityScore := intel.completenessScore
    mergedIntelligence := intel
    dataGaps := intel.dataGaps }

/-- Environment of one executeResearch run: whether the job row is
found, which of the fallible external calls throw (some message) or
succeed (none), and the data each agent returns when it succeeds.  The
progress writes of updateJobProgress swallow their own persistence
errors in the source and never influence control flow, so they are
modelled as always applying. -/
structure ExecEnv : Type where
  jobFound : Bool
  markRunningError : Option String
  markResearchingError : Option String
  websiteResult : WebsiteAnalysisResult
  websiteError : Option String
  socialResult : SocialHuntResult
  socialError : Option String
  newsResult : NewsReputationResult
  newsError : Option String
  businessResult : BusinessAnalysisResult
  businessError : Option String
  upsertError : Option String
  markJobCompletedError : Option String
  markCompanyCompletedError : Option String
deriving Repr

/-- Observable outcome of one executeResearch run: the final database
slice, the returned intelligence or the re-thrown error message, the
number of researchResult upserts performed, and the number of
invocations recorded with the evolution engine. -/
structure ExecOutcome : Type where
  db : Db
  result : Except String ComprehensiveIntelligence
  upsertCount : ℕ
  evolutionRecordCount : ℕ

/-- A progress write of updateJobProgress (per-stage agent status fields
are not modelled). -/
def setProgress (db : Db) (progress : ℚ) : Db :=
  { db with job := { db.job with progress := progress } }

/-- The catch block of executeResearch (orchestrator lines 355 to 373):
mark the job FAILED with the captured message, mark the company FAILED,
and re-throw. -/
def catchFailure (db : Db) (msg : String) (upserts : ℕ) : ExecOutcome :=
  { db := { db with
      job := { db.job with status := JobStatus.failed, errorMessage := some msg }
      company := { db.company with status := CompanyStatus.failed } }
    result := Except.error msg
    upsertCount := upserts
    evolutionRecordCount := 0 }

/-- Embedding of executeResearch (orchestrator/index.ts lines 170 to
374) as a state transformer on the database slice, with the environment
choosing each external call's outcome.  The load of the job row and the
two status updates to RUNNING and RESEARCHING happen before the try
block, so their failures propagate without the catch block running; the
four stages, the upsert and the two completion updates sit inside the
try block, whose catch marks job and company FAILED and re-throws.  The
source contains no call to the evolution engine logging functions, so
evolutionRecordCount is 0 on every path. -/
def executeResearch (env : ExecEnv) (db0 : Db) : ExecOutcome :=
  if !env.jobFound then
    { db := db0, result := Except.error ("Job not found: " ++ db0.job.id)
      upsertCount := 0, evolutionRecordCount := 0 }
  else
    match env.markRunningError with
    | some msg =>
      { db := db0, result := Except.error msg, upsertCount := 0, evolutionRecordCount := 0 }
    | none =>
    let db1 : Db := { db0 with job := { db0.job with status := JobStatus.running } }
    match env.markResearchingError with
    | some msg =>
      { db := db1, result := Except.error msg, upsertCount := 0, evolutionRecordCount := 0 }
    | none =>
    let db2 : Db := { db1 with company := { db1.company with status := CompanyStatus.researching } }
    let intel0 := initialIntel db2.company
    -- Stage 1: website analysis, run only when the company has a website
    let dbA := setProgress db2 5
    match (if db2.company.website.isSome then env.websiteError else none) with
    | some msg => catchFailure dbA msg 0
    | none =>
    let intel1 :=
      { intel0 with
        websiteData := if db2.company.website.isSome then some env.websiteResult else none }
    let dbB := setProgress dbA 25
    -- Stage 2: social media hunt
    let dbC := setProgress dbB 30
    match env.socialError with
    | some msg => catchFailure dbC msg 0
    | none =>
    let intel2 := { intel1 with socialData := some env.socialResult }
    let dbD := setProgress dbC 50
    -- Stage 3: news aggregation
    let dbE := setProgress dbD 55
    match env.newsError with
    | some msg => catchFailure dbE msg 0
    | none =>
    let intel3 := { intel2 with newsData := some env.newsResult }
    let dbF := setProgress dbE 75
    -- Stage 4: business analysis
    let dbG := setProgress dbF 80
    match env.businessError with
    | some msg => catchFailure dbG msg 0
    | none =>
    let intel4 := { intel3 with businessData := some env.businessResult }
    let dbH := setProgress dbG 100
    let intel5 := finalizeIntel intel4
    -- Persist the research result (upsert keyed by company id)
    match env.upsertError with
    | some msg => catchFailure dbH msg 0
    | none =>
    let dbI : Db :=
      { dbH with researchResult := some (mkResearchResultRecord dbH.company.id intel5) }
    match env.markJobCompletedError with
    | some msg => catchFailure dbI msg 1
    | none =>
    let dbJ : Db := { dbI with job := { dbI.job with status := JobStatus.completed } }
    match env.markCompanyCompletedError with
    | some msg => catchFailure dbJ msg 1
    | none =>
    let dbK : Db := { dbJ with company := { dbJ.company with status := CompanyStatus.completed } }
    { db := dbK, result := Except.ok intel5, upsertCount := 1, evolutionRecordCount := 0 }

/-! ## Shared sample values -/

/-- A sample reliability row with successRate 80, used to instantiate
the evolution-engine theorems. -/
def sampleSource : SourceConfig :=
  { sourceName := "google_search"
    isEnabled := true
    priority := 5
    successRate := 80
    avgQualityScore := 50
    avgDurationMs := 1000
    requestsPerMinute := 10
    delayBetweenMs := 6000
    dailyLimit := 500
    currentDailyUsage := 0 }

/-- A website result with confidence 100, the documented upper bound. -/
def confWebsite100 : WebsiteAnalysisResult :=
  { status := WebsiteStatus.live, contactInfo := none, confidenceScore := 100 }

/-- A social result with two platforms at confidence 100 each. -/
def confSocial100 : SocialHuntResult :=
  { platforms :=
      [{ platform := "facebook", confidenceScore := 100 },
        { platform := "linkedin", confidenceScore := 100 }]
    socialPresenceScore := 60 }

/-- A website result whose confidence 300 exceeds the documented range. -/
def confWebsite300 : WebsiteAnalysisResult :=
  { status := WebsiteStatus.live, contactInfo := none, confidenceScore := 300 }

/-- A running job over a researching company, for instantiating the
cancel theorem. -/
def dbRunning : Db :=
  { job := { id := "job1", companyId := "co1", status := JobStatus.running
             progress := 50, errorMessage := none }
    company := { id := "co1", companyName := "Acme", website := none
                 phone := none, address := none, status := CompanyStatus.researching }
    researchResult := none }

/-- A completion event for company c1 with a given completeness score,
as appended by logResearchComplete. -/
def completion (c : ℚ) : EvolutionLog := logResearchComplete "c1" c [] [] []

/-- Eleven completion events most-recent-first: ten at completeness 100
followed by one at completeness 0. -/
def trendCexLogs : List EvolutionLog :=
  [completion 100, completion 100, completion 100, completion 100, completion 100,
    completion 100, completion 100, completion 100, completion 100, completion 100,
    completion 0]

/-- Ten completion events at completeness 75. -/
def tenCompletions : List EvolutionLog :=
  List.replicate 10 (completion 75)

/-- The first exception thrown inside the try block of executeResearch,
if any: the four stage calls in order (the website stage can only throw
when it runs, i.e. when the company has a website), then the upsert,
then the two completion status updates. -/
def firstStagedError (env : ExecEnv) (db : Db) : Option String :=
  match (if db.company.website.isSome then env.websiteError else none) with
  | some m => some m
  | none =>
    match env.socialError with
    | some m => some m
    | none =>
      match env.newsError with
      | some m => some m
      | none =>
        match env.businessError with
        | some m => some m
        | none =>
          match env.upsertError with
          | some m => some m
          | none =>
            match env.markJobCompletedError with
            | some m => some m
            | none => env.markCompanyCompletedError

/-- The fully fused intelligence record of a run whose four stages all
complete: every stage output stored (the website output only when the
company has a website) and the final scores computed over them. -/
def fullIntel (env : ExecEnv) (db : Db) : ComprehensiveIntelligence :=
  finalizeIntel
    { initialIntel db.company with
      websiteData := if db.company.website.isSome then some env.websiteResult else none
      socialData := some env.socialResult
      newsData := some env.newsResult
      businessData := some env.businessResult }

/-- A sample news result with two mentions. -/
def sampleNews : NewsReputationResult := { totalMentions := 2, reputationScore := 70 }

/-- A sample business result with one opportunity. -/
def sampleBusiness : BusinessAnalysisResult :=
  { digitalMaturityScore := 55, opportunities := [{ title := "SEO improvements" }] }

/-- An environment in which the job is found and every external call
succeeds. -/
def envOk : ExecEnv :=
  { jobFound := true
    markRunningError := none
    markResearchingError := none
    websiteResult := confWebsite100
    websiteError := none
    socialResult := confSocial100
    socialError := none
    newsResult := sampleNews
    newsError := none
    businessResult := sampleBusiness
    businessError := none
    upsertError := none
    markJobCompletedError := none
    markCompanyCompletedError := none }

/-- The same environment except that the persistence step marking the
job RUNNING throws. -/
def envRunFail : ExecEnv := { envOk with markRunningError := some "database connection lost" }

/-- A queued job for a company that has a website. -/
def dbQueued : Db :=
  { job := { id := "job2", companyId := "co2", status := JobStatus.queued
             progress := 0, errorMessage := none }
    company := { id := "co2", companyName := "Globex", website := some "https://globex.example"
                 phone := none, address := none, status := CompanyStatus.queued }
    researchResult := none }

/-! ## C1: completeness score -/

/-- C1: for every ComprehensiveIntelligence record, calculateCompleteness
lies in [0, 100] and equals the exact sum of the six all-or-nothing
weighted criteria: +30 live website, +20 at least one social platform,
+15 at least one news mention, +15 at least one opportunity, +10 at
least one contact email or phone, +10 at least two platforms. -/
theorem completeness_bounds_and_weighted_sum (intel : ComprehensiveIntelligence) :
    0 ≤ calculateCompleteness intel ∧ calculateCompleteness intel ≤ 100 ∧
    calculateCompleteness intel =
      (if websiteIsLive intel then 30 else 0)
        + (if hasSocialPlatform intel then 20 else 0)
        + (if hasNewsMention intel then 15 else 0)
        + (if hasOpportunity intel then 15 else 0)
        + (if hasContactInfo intel then 10 else 0)
        + (if hasTwoSocialProfiles intel then 10 else 0) := by
  unfold calculateCompleteness completenessWeights
  split_ifs <;> norm_num

/-! ## C2: success-rate smoothing -/

lemma successRate_update_true (e : SourceConfig) (name : String) (d q : ℚ) :
    (updateSourceMetrics (some e) name true d q).successRate
      = min 100 (e.successRate + (100 - e.successRate) * 0.1) := by
  simp [updateSourceMetrics]

lemma successRate_update_false (e : SourceConfig) (name : String) (d q : ℚ) :
    (updateSourceMetrics (some e) name false d q).successRate
      = max 0 (e.successRate - 10) := by
  simp [updateSourceMetrics]

lemma successRate_step (s : ℚ) (h : s < 100) :
    s < min 100 (s + (100 - s) * 0.1) ∧ min 100 (s + (100 - s) * 0.1) < 100 := by
  have hx : s + (100 - s) * 0.1 < 100 := by nlinarith
  have hy : s < s + (100 - s) * 0.1 := by nlinarith
  exact ⟨lt_min h hy, min_lt_iff.mpr (Or.inr hx)⟩

lemma iterateSuccess_lt_100 (name : String) (d q : ℚ) (e : SourceConfig)
    (h : e.successRate < 100) (n : ℕ) :
    (iterateSuccess name d q n e).successRate < 100 := by
  induction n with
  | zero => simpa [iterateSuccess] using h
  | succ n ih =>
    have step := successRate_step (iterateSuccess name d q n e).successRate ih
    have heq : (iterateSuccess name d q (n + 1) e).successRate
        = min 100 ((iterateSuccess name d q n e).successRate
            + (100 - (iterateSuccess name d q n e).successRate) * 0.1) := by
      rw [iterateSuccess, successRate_update_true]
    rw [heq]
    exact step.2

/-- C2: a success event sets successRate to
min(100, successRate + (100 - successRate) * 0.1), a failure event sets
it to max(0, successRate - 10), and from any starting value below 100
repeated success events increase successRate strictly at every step
while never reaching 100. -/
theorem successRate_smoothing (e : SourceConfig) (name : String) (d q : ℚ) :
    (updateSourceMetrics (some e) name true d q).successRate
        = min 100 (e.successRate + (100 - e.successRate) * 0.1)
      ∧ (updateSourceMetrics (some e) name false d q).successRate
        = max 0 (e.successRate - 10)
      ∧ (e.successRate < 100 → ∀ n : ℕ,
          (iterateSuccess name d q n e).successRate
              < (iterateSuccess name d q (n + 1) e).successRate
            ∧ (iterateSuccess name d q (n + 1) e).successRate < 100) := by
  refine ⟨successRate_update_true e name d q, successRate_update_false e name d q, ?_⟩
  intro h n
  have h100 := iterateSuccess_lt_100 name d q e h n
  have step := successRate_step (iterateSuccess name d q n e).successRate h100
  have heq : (iterateSuccess name d q (n + 1) e).successRate
      = min 100 ((iterateSuccess name d q n e).successRate
          + (100 - (iterateSuccess name d q n e).successRate) * 0.1) := by
    rw [iterateSuccess, successRate_update_true]
  rw [heq]
  exact step

/-- C2 witness: the spec's concrete scenario, a row at successRate 80
receives a success and moves to 82 while staying below 100, and a
failure from 80 yields 70. -/
theorem successRate_smoothing_witness :
    (updateSourceMetrics (some sampleSource) "google_search" true 1200 70).successRate = 82
      ∧ (iterateSuccess "google_search" 1200 70 1 sampleSource).successRate < 100
      ∧ (updateSourceMetrics (some sampleSource) "google_search" false 1200 70).successRate = 70 := by
  have h := successRate_smoothing sampleSource "google_search" 1200 70
  refine ⟨?_, ?_, ?_⟩
  · rw [h.1]
    norm_num [sampleSource]
  · exact (h.2.2 (by norm_num [sampleSource]) 0).2
  · rw [h.2.1]
    norm_num [sampleSource]

/-! ## C5: the enabled flag -/

/-- C5 counterexample: the lazy creation of a row on a first failure
seeds successRate 0 yet sets enabled to true, so after that update
enabled is not equivalent to successRate being above 20. -/
theorem enabled_iff_above20_counterexample :
    ¬ ((updateSourceMetrics none "new_source" false 0 0).isEnabled = true
        ↔ 20 < (updateSourceMetrics none "new_source" false 0 0).successRate) := by
  simp [updateSourceMetrics]

/-- C5 amended: after every update of an existing SourceReliability row
the enabled flag is true iff the just-updated successRate is strictly
greater than 20; the lazy creation of a row on the first event sets
enabled to true unconditionally, even when a first failure seeds
successRate 0. -/
theorem enabled_iff_above20 (e : SourceConfig) (name : String)
    (success : Bool) (d q : ℚ) :
    ((updateSourceMetrics (some e) name success d q).isEnabled = true
        ↔ 20 < (updateSourceMetrics (some e) name success d q).successRate)
      ∧ (updateSourceMetrics none name success d q).isEnabled = true := by
  constructor
  · simp [updateSourceMetrics]
  · simp [updateSourceMetrics]

/-! ## C9: duration and quality averages -/

/-- C9 counterexample: a success event whose duration is 0 leaves
avgDurationMs unchanged at 1000 instead of updating it to the two-point
average round((1000 + 0) / 2) = 500 the claim prescribes for every
success event. -/
theorem averages_counterexample :
    ¬ ((updateSourceMetrics (some sampleSource) "google_search" true 0 80).avgDurationMs
        = jsRound ((sampleSource.avgDurationMs + 0) / 2)) := by
  simp only [updateSourceMetrics, sampleSource, jsRound]
  norm_num

/-- C9 amended: a success event updates avgDurationMs to
round((avgDurationMs + durationMs) / 2) only when durationMs is
positive and updates avgQualityScore to
(avgQualityScore + qualityScore) / 2 only when qualityScore is
positive, leaving the respective average unchanged otherwise; a failure
event leaves both averages unchanged. -/
theorem averages_two_point_guarded (e : SourceConfig) (name : String) (d q : ℚ) :
    (0 < d → (updateSourceMetrics (some e) name true d q).avgDurationMs
        = jsRound ((e.avgDurationMs + d) / 2))
      ∧ (¬ 0 < d → (updateSourceMetrics (some e) name true d q).avgDurationMs
        = e.avgDurationMs)
      ∧ (0 < q → (updateSourceMetrics (some e) name true d q).avgQualityScore
        = (e.avgQualityScore + q) / 2)
      ∧ (¬ 0 < q → (updateSourceMetrics (some e) name true d q).avgQualityScore
        = e.avgQualityScore)
      ∧ (updateSourceMetrics (some e) name false d q).avgDurationMs = e.avgDurationMs
      ∧ (updateSourceMetrics (some e) name false d q).avgQualityScore = e.avgQualityScore := by
  refine ⟨fun h => ?_, fun h => ?_, fun h => ?_, fun h => ?_, ?_, ?_⟩
  · simp [updateSourceMetrics, h]
  · simp [updateSourceMetrics, h]
  · simp [updateSourceMetrics, h]
  · simp [updateSourceMetrics, h]
  · simp [updateSourceMetrics]
  · simp [updateSourceMetrics]

/-- C9 witness: at sampleSource, a success with duration 500 and quality
70 updates both averages to their two-point values, a success with
duration 0 and quality 0 leaves both unchanged, and a failure leaves
both unchanged. -/
theorem averages_two_point_guarded_witness :
    (updateSourceMetrics (some sampleSource) "google_search" true 500 70).avgDurationMs = 750
      ∧ (updateSourceMetrics (some sampleSource) "google_search" true 500 70).avgQualityScore = 60
      ∧ (updateSourceMetrics (some sampleSource) "google_search" true 0 0).avgDurationMs = 1000
      ∧ (updateSourceMetrics (some sampleSource) "google_search" true 0 0).avgQualityScore = 50
      ∧ (updateSourceMetrics (some sampleSource) "google_search" false 500 70).avgDurationMs = 1000
      ∧ (updateSourceMetrics (some sampleSource) "google_search" false 500 70).avgQualityScore = 50 := by
  have h1 := averages_two_point_guarded sampleSource "google_search" 500 70
  have h2 := averages_two_point_guarded sampleSource "google_search" 0 0
  refine ⟨?_, ?_, ?_, ?_, ?_, ?_⟩
  · rw [h1.1 (by norm_num)]
    norm_num [sampleSource, jsRound]
  · rw [h1.2.2.1 (by norm_num)]
    norm_num [sampleSource]
  · rw [h2.2.1 (by norm_num)]
    norm_num [sampleSource]
  · rw [h2.2.2.2.1 (by norm_num)]
    norm_num [sampleSource]
  · rw [h1.2.2.2.2.1]
    norm_num [sampleSource]
  · rw [h1.2.2.2.2.2]
    norm_num [sampleSource]

/-! ## C4: confidence score -/

/-- C4: the fused confidence score equals
round(websiteConfidence / 2 + (mean per-platform social confidence) / 4
+ 25) with the social term 0 when no platforms were found, it is exactly
100 when the website confidence and every platform confidence are 100,
and it is not clamped: a website confidence of 300 yields a value above
100. -/
theorem confidence_formula_unclamped (websiteData : Option WebsiteAnalysisResult)
    (socialData : Option SocialHuntResult) :
    computeConfidenceScore websiteData socialData
        = specConfidenceScore (orZero (websiteData.map (fun w => w.confidenceScore)))
            ((socialData.map (fun s => s.platforms.map (fun p => p.confidenceScore))).getD [])
      ∧ computeConfidenceScore (some confWebsite100) (some confSocial100) = 100
      ∧ 100 < computeConfidenceScore (some confWebsite300) none := by
  refine ⟨?_, ?_, ?_⟩
  · cases socialData with
    | none => simp [computeConfidenceScore, specConfidenceScore, orZero, lengthOr1]
    | some s =>
      by_cases hlen : s.platforms.length = 0
      · rw [List.length_eq_zero] at hlen
        simp [computeConfidenceScore, specConfidenceScore, orZero, lengthOr1, hlen]
      · have hlen2 : s.platforms.length ≠ 0 := hlen
        simp [computeConfidenceScore, specConfidenceScore, orZero, lengthOr1, hlen2]
  · norm_num [computeConfidenceScore, confWebsite100, confSocial100, jsRound,
      orZero, lengthOr1]
  · norm_num [computeConfidenceScore, confWebsite300, jsRound, orZero, lengthOr1]

/-! ## C6: the cancel route -/

/-- C6: cancellation succeeds exactly from PENDING, QUEUED or RUNNING,
in which case the job becomes CANCELLED and the company status reverts
to PENDING with everything else unchanged; from COMPLETED, FAILED or
CANCELLED the request is rejected with an error and neither row
changes. -/
theorem cancel_succeeds_iff_active (db : Db) :
    ((cancelResearchJob db).2 = CancelOutcome.success
        ↔ db.job.status = JobStatus.pending ∨ db.job.status = JobStatus.queued
            ∨ db.job.status = JobStatus.running)
      ∧ ((db.job.status = JobStatus.pending ∨ db.job.status = JobStatus.queued
            ∨ db.job.status = JobStatus.running) →
          cancelResearchJob db =
            ({ db with
                job := { db.job with status := JobStatus.cancelled }
                company := { db.company with status := CompanyStatus.pending } },
              CancelOutcome.success))
      ∧ ((db.job.status = JobStatus.completed ∨ db.job.status = JobStatus.failed
            ∨ db.job.status = JobStatus.cancelled) →
          cancelResearchJob db = (db, CancelOutcome.rejected "Job cannot be cancelled")) := by
  refine ⟨?_, ?_, ?_⟩
  · cases h : db.job.status <;> simp [cancelResearchJob, h]
  · intro h
    rcases h with h | h | h <;> simp [cancelResearchJob, h]
  · intro h
    rcases h with h | h | h <;> simp [cancelResearchJob, h]

/-- C6 witness: cancelling the running job dbRunning succeeds, sets the
job CANCELLED and the company PENDING, and a second cancel of the
now-cancelled job is rejected without further changes. -/
theorem cancel_succeeds_iff_active_witness :
    (cancelResearchJob dbRunning).2 = CancelOutcome.success
      ∧ (cancelResearchJob dbRunning).1.job.status = JobStatus.cancelled
      ∧ (cancelResearchJob dbRunning).1.company.status = CompanyStatus.pending
      ∧ cancelResearchJob (cancelResearchJob dbRunning).1
          = ((cancelResearchJob dbRunning).1, CancelOutcome.rejected "Job cannot be cancelled") := by
  have h1 := (cancel_succeeds_iff_active dbRunning).2.1 (Or.inr (Or.inr rfl))
  have h2 := (cancel_succeeds_iff_active (cancelResearchJob dbRunning).1).2.2
    (by rw [h1]; exact Or.inr (Or.inr rfl))
  refine ⟨?_, ?_, ?_, h2⟩
  · rw [h1]
  · rw [h1]
  · rw [h1]

/-! ## C8: quality-trend classification -/

lemma analyzeLearningInsights_qualityTrend (sources : List SourceConfig)
    (logs : List EvolutionLog) :
    (analyzeLearningInsights sources logs).qualityTrend
      = qualityTrendOf (recentCompleteLogs logs) := rfl

lemma qualityTrendOf_of_lt10 (recent : List EvolutionLog)
    (h : recent.length < 10) : qualityTrendOf recent = Trend.stable := by
  unfold qualityTrendOf
  rw [if_neg (by omega)]

lemma qualityTrendOf_of_len10 (recent : List EvolutionLog)
    (h : recent.length = 10) : qualityTrendOf recent = Trend.stable := by
  unfold qualityTrendOf
  have hdrop : recent.drop 10 = [] := by
    rw [List.drop_eq_nil_iff]
    omega
  rw [if_pos (by omega), hdrop]
  have h1 : ¬ (windowMean (recent.take 10) + 5 < windowMean (recent.take 10)) := by
    intro hc
    linarith
  have h2 : ¬ (windowMean (recent.take 10) < windowMean (recent.take 10) - 5) := by
    intro hc
    linarith
  simp [h1, h2]

lemma qualityTrendOf_of_gt10 (recent : List EvolutionLog)
    (h : 10 < recent.length) :
    qualityTrendOf recent =
      if windowMean ((recent.drop 10).take 10) + 5 < windowMean (recent.take 10)
      then Trend.improving
      else if windowMean (recent.take 10) < windowMean ((recent.drop 10).take 10) - 5
      then Trend.declining
      else Trend.stable := by
  unfold qualityTrendOf
  have hlen : 0 < ((recent.drop 10).take 10).length := by
    rw [List.length_take, List.length_drop]
    omega
  rw [if_pos (by omega)]
  simp only [if_pos hlen]

/-- C8 counterexample: eleven completion events, the ten most recent at
completeness 100 and the eleventh at 0, are fewer than 20, yet the
classification compares the true means of the two windows (100 versus
0) and returns improving instead of the stable the claim forces for any
history of fewer than 20 events. -/
theorem quality_trend_counterexample :
    (recentCompleteLogs trendCexLogs).length = 11
      ∧ (analyzeLearningInsights [] trendCexLogs).qualityTrend = Trend.improving := by
  constructor
  · simp [recentCompleteLogs, trendCexLogs, completion, logResearchComplete]
  · rw [analyzeLearningInsights_qualityTrend]
    have hrec : recentCompleteLogs trendCexLogs = trendCexLogs := by
      simp [recentCompleteLogs, trendCexLogs, completion, logResearchComplete]
    rw [hrec, qualityTrendOf_of_gt10 _ (by simp [trendCexLogs])]
    rw [if_pos ?_]
    simp [trendCexLogs, completion, logResearchComplete, windowMean]
    norm_num

/-- C8 amended: the quality trend over the 20 most recent completion
events (most-recent-first) is stable when fewer than 10 such events
exist; with exactly 10 events the second window is empty, its mean
falls back to the first window's mean, and the trend is forced stable;
with more than 10 events the second window holds the events at indices
[10..20) and the true window means are compared, improving when
mean(window0) exceeds mean(window1) by more than 5 and declining when
it falls short by more than 5. -/
theorem quality_trend_windows (sources : List SourceConfig) (logs : List EvolutionLog) :
    ((recentCompleteLogs logs).length < 10 →
        (analyzeLearningInsights sources logs).qualityTrend = Trend.stable)
      ∧ ((recentCompleteLogs logs).length = 10 →
        (analyzeLearningInsights sources logs).qualityTrend = Trend.stable)
      ∧ (10 < (recentCompleteLogs logs).length →
        (analyzeLearningInsights sources logs).qualityTrend =
          if windowMean (((recentCompleteLogs logs).drop 10).take 10) + 5
              < windowMean ((recentCompleteLogs logs).take 10)
          then Trend.improving
          else if windowMean ((recentCompleteLogs logs).take 10)
              < windowMean (((recentCompleteLogs logs).drop 10).take 10) - 5
          then Trend.declining
          else Trend.stable) := by
  refine ⟨fun h => ?_, fun h => ?_, fun h => ?_⟩
  · rw [analyzeLearningInsights_qualityTrend, qualityTrendOf_of_lt10 _ h]
  · rw [analyzeLearningInsights_qualityTrend, qualityTrendOf_of_len10 _ h]
  · rw [analyzeLearningInsights_qualityTrend, qualityTrendOf_of_gt10 _ h]

/-- C8 witness: no events give a stable trend, exactly ten events give a
stable trend, and the eleven-event history of the counterexample input
classifies as improving because its window means are 100 and 0. -/
theorem quality_trend_windows_witness :
    (analyzeLearningInsights [] []).qualityTrend = Trend.stable
      ∧ (analyzeLearningInsights [] tenCompletions).qualityTrend = Trend.stable
      ∧ (analyzeLearningInsights [] trendCexLogs).qualityTrend = Trend.improving := by
  refine ⟨?_, ?_, ?_⟩
  · exact (quality_trend_windows [] []).1 (by simp [recentCompleteLogs])
  · exact (quality_trend_windows [] tenCompletions).2.1
      (by simp [recentCompleteLogs, tenCompletions, completion, logResearchComplete])
  · rw [(quality_trend_windows [] trendCexLogs).2.2
      (by simp [recentCompleteLogs, trendCexLogs, completion, logResearchComplete])]
    have hrec : recentCompleteLogs trendCexLogs = trendCexLogs := by
      simp [recentCompleteLogs, trendCexLogs, completion, logResearchComplete]
    rw [hrec, if_pos ?_]
    simp [trendCexLogs, completion, logResearchComplete, windowMean]
    norm_num

/-! ## C10: completion events carry no duration -/

lemma analyzeLearningInsights_avgProcessingTime (sources : List SourceConfig)
    (logs : List EvolutionLog) :
    (analyzeLearningInsights sources logs).avgProcessingTime
      = avgProcessingTimeOf (recentCompleteLogs logs) := rfl

lemma analyzeLearningInsights_recommendations (sources : List SourceConfig)
    (logs : List EvolutionLog) :
    (analyzeLearningInsights sources logs).recommendations
      = (if 0 < (analyzeLearningInsights sources logs).problematicSources.length
          then [reviewRecommendation (analyzeLearningInsights sources logs).problematicSources]
          else [])
        ++ (if qualityTrendOf (recentCompleteLogs logs) = Trend.declining
            then [decliningRecommendation] else [])
        ++ (if 300 < avgProcessingTimeOf (recentCompleteLogs logs)
            then [processingTimeRecommendation] else []) := rfl

lemma avgProcessingTimeOf_of_no_durations (recent : List EvolutionLog)
    (h : ∀ l ∈ recent, l.durationMs = none) :
    avgProcessingTimeOf recent = 0 := by
  unfold avgProcessingTimeOf
  have hsum : (recent.map (fun l => l.durationMs.getD 0)).sum = 0 := by
    apply List.sum_eq_zero
    intro x hx
    rw [List.mem_map] at hx
    obtain ⟨l, hl, rfl⟩ := hx
    rw [h l hl]
    rfl
  split
  · rw [hsum]
    norm_num [jsRound]
  · rfl

lemma reviewRecommendation_ne_time (ps : List String) :
    reviewRecommendation ps ≠ processingTimeRecommendation := by
  intro h
  rw [reviewRecommendation, processingTimeRecommendation] at h
  have hdata := congrArg String.data h
  rw [String.data_append] at hdata
  have h5 := congrArg (fun l => l.take 5) hdata
  simp only at h5
  rw [List.take_append_of_le_length (by decide)] at h5
  revert h5
  decide

/-- C10: for a history made only of events appended by
logResearchComplete (which writes no duration), the average processing
time over the most recent 20 completion events is 0 seconds, and the
recommendation triggered by average processing time above 300 seconds
is never produced. -/
theorem completion_events_zero_processing_time (sources : List SourceConfig)
    (entries : List (String × ℚ × List String × List String × List String)) :
    (analyzeLearningInsights sources
        (entries.map (fun e =>
          logResearchComplete e.1 e.2.1 e.2.2.1 e.2.2.2.1 e.2.2.2.2))).avgProcessingTime = 0
      ∧ processingTimeRecommendation ∉
        (analyzeLearningInsights sources
          (entries.map (fun e =>
            logResearchComplete e.1 e.2.1 e.2.2.1 e.2.2.2.1 e.2.2.2.2))).recommendations := by
  have hnone : ∀ l ∈ entries.map (fun e =>
      logResearchComplete e.1 e.2.1 e.2.2.1 e.2.2.2.1 e.2.2.2.2), l.durationMs = none := by
    intro l hl
    rw [List.mem_map] at hl
    obtain ⟨e, he, rfl⟩ := hl
    rfl
  have hrecent : ∀ l ∈ recentCompleteLogs (entries.map (fun e =>
      logResearchComplete e.1 e.2.1 e.2.2.1 e.2.2.2.1 e.2.2.2.2)), l.durationMs = none := by
    intro l hl
    exact hnone l (List.mem_of_mem_filter (List.take_subset _ _ hl))
  have havg := avgProcessingTimeOf_of_no_durations _ hrecent
  have hno : ¬ (300 < avgProcessingTimeOf (recentCompleteLogs (entries.map (fun e =>
      logResearchComplete e.1 e.2.1 e.2.2.1 e.2.2.2.1 e.2.2.2.2)))) := by
    rw [havg]
    norm_num
  constructor
  · rw [analyzeLearningInsights_avgProcessingTime]
    exact havg
  · rw [analyzeLearningInsights_recommendations, if_neg hno]
    intro hmem
    rw [List.append_nil, List.mem_append] at hmem
    rcases hmem with hmem | hmem
    · split_ifs at hmem
      · rw [List.mem_singleton] at hmem
        exact reviewRecommendation_ne_time _ hmem.symm
      · simp at hmem
    · split_ifs at hmem
      · rw [List.mem_singleton] at hmem
        revert hmem
        decide
      · simp at hmem

/-! ## C7 and C3: executeResearch outcomes -/

/-- C7 amended: exceptions thrown while loading the job or marking the
job RUNNING or the company RESEARCHING propagate without marking
anything FAILED; an exception thrown inside the staged section (a
stage, the upsert, or a completion status write) marks job and company
FAILED with the captured message and re-throws, and on that path the
result store is either untouched or already holds the one fully fused
record (never a partial one); a run with no exception persists exactly
one record via the upsert and marks job and company COMPLETED. -/
theorem executeResearch_outcomes (env : ExecEnv) (db : Db) (msg : String) :
    (env.jobFound = false →
      (executeResearch env db).db = db
        ∧ (executeResearch env db).result = Except.error ("Job not found: " ++ db.job.id))
    ∧ (env.jobFound = true → env.markRunningError = some msg →
      (executeResearch env db).db = db
        ∧ (executeResearch env db).result = Except.error msg)
    ∧ (env.jobFound = true → env.markRunningError = none →
        env.markResearchingError = some msg →
      (executeResearch env db).db.job.status = JobStatus.running
        ∧ (executeResearch env db).db.company.status = db.company.status
        ∧ (executeResearch env db).db.researchResult = db.researchResult
        ∧ (executeResearch env db).result = Except.error msg)
    ∧ (env.jobFound = true → env.markRunningError = none →
        env.markResearchingError = none → firstStagedError env db = some msg →
      (executeResearch env db).db.job.status = JobStatus.failed
        ∧ (executeResearch env db).db.job.errorMessage = some msg
        ∧ (executeResearch env db).db.company.status = CompanyStatus.failed
        ∧ (executeResearch env db).result = Except.error msg
        ∧ ((executeResearch env db).db.researchResult = db.researchResult
            ∨ (executeResearch env db).db.researchResult
              = some (mkResearchResultRecord db.company.id (fullIntel env db))))
    ∧ (env.jobFound = true → env.markRunningError = none →
        env.markResearchingError = none → firstStagedError env db = none →
      (executeResearch env db).db.job.status = JobStatus.completed
        ∧ (executeResearch env db).db.company.status = CompanyStatus.completed
        ∧ (executeResearch env db).result = Except.ok (fullIntel env db)
        ∧ (executeResearch env db).upsertCount = 1
        ∧ (executeResearch env db).db.researchResult
          = some (mkResearchResultRecord db.company.id (fullIntel env db))) := by
  refine ⟨?_, ?_, ?_, ?_, ?_⟩
  · intro h
    simp [executeResearch, h]
  · intro h1 h2
    simp [executeResearch, h1, h2]
  · intro h1 h2 h3
    simp [executeResearch, h1, h2, h3]
  · intro h1 h2 h3 h4
    unfold firstStagedError at h4
    rcases hw : (if db.company.website.isSome then env.websiteError else none) with _ | m
    case some =>
      rw [hw] at h4
      simp only [Option.some.injEq] at h4
      subst h4
      simp [executeResearch, h1, h2, h3, hw, catchFailure, setProgress]
    case none =>
    rw [hw] at h4
    rcases hsoc : env.socialError with _ | m
    case some =>
      rw [hsoc] at h4
      simp only [Option.some.injEq] at h4
      subst h4
      simp [executeResearch, h1, h2, h3, hw, hsoc, catchFailure, setProgress]
    case none =>
    rw [hsoc] at h4
    rcases hnews : env.newsError with _ | m
    case some =>
      rw [hnews] at h4
      simp only [Option.some.injEq] at h4
      subst h4
      simp [executeResearch, h1, h2, h3, hw, hsoc, hnews, catchFailure, setProgress]
    case none =>
    rw [hnews] at h4
    rcases hbus : env.businessError with _ | m
    case some =>
      rw [hbus] at h4
      simp only [Option.some.injEq] at h4
      subst h4
      simp [executeResearch, h1, h2, h3, hw, hsoc, hnews, hbus, catchFailure, setProgress]
    case none =>
    rw [hbus] at h4
    rcases hup : env.upsertError with _ | m
    case some =>
      rw [hup] at h4
      simp only [Option.some.injEq] at h4
      subst h4
      simp [executeResearch, h1, h2, h3, hw, hsoc, hnews, hbus, hup, catchFailure, setProgress]
    case none =>
    rw [hup] at h4
    rcases hjc : env.markJobCompletedError with _ | m
    case some =>
      rw [hjc] at h4
      simp only [Option.some.injEq] at h4
      subst h4
      simp [executeResearch, h1, h2, h3, hw, hsoc, hnews, hbus, hup, hjc, catchFailure,
        setProgress, fullIntel, mkResearchResultRecord, initialIntel]
    case none =>
    rw [hjc] at h4
    dsimp only at h4
    simp [executeResearch, h1, h2, h3, hw, hsoc, hnews, hbus, hup, hjc, h4, catchFailure,
      setProgress, fullIntel, mkResearchResultRecord, initialIntel]
  · intro h1 h2 h3 h4
    unfold firstStagedError at h4
    rcases hw : (if db.company.website.isSome then env.websiteError else none) with _ | m
    case some =>
      rw [hw] at h4
      simp at h4
    case none =>
    rw [hw] at h4
    rcases hsoc : env.socialError with _ | m
    case some =>
      rw [hsoc] at h4
      simp at h4
    case none =>
    rw [hsoc] at h4
    rcases hnews : env.newsError with _ | m
    case some =>
      rw [hnews] at h4
      simp at h4
    case none =>
    rw [hnews] at h4
    rcases hbus : env.businessError with _ | m
    case some =>
      rw [hbus] at h4
      simp at h4
    case none =>
    rw [hbus] at h4
    rcases hup : env.upsertError with _ | m
    case some =>
      rw [hup] at h4
      simp at h4
    case none =>
    rw [hup] at h4
    rcases hjc : env.markJobCompletedError with _ | m
    case some =>
      rw [hjc] at h4
      simp at h4
    case none =>
    rw [hjc] at h4
    dsimp only at h4
    simp [executeResearch, h1, h2, h3, hw, hsoc, hnews, hbus, hup, hjc, h4,
      setProgress, fullIntel, mkResearchResultRecord, initialIntel]

/-- C7 counterexample: when the persistence step that marks the job
RUNNING throws (before the try block), the exception propagates to the
caller but the job stays QUEUED and the company is not marked FAILED,
contradicting the claim that every exception escaping a persistence
step marks both rows FAILED. -/
theorem executeResearch_prefail_counterexample :
    (executeResearch envRunFail dbQueued).result = Except.error "database connection lost"
      ∧ (executeResearch envRunFail dbQueued).db.job.status = JobStatus.queued
      ∧ (executeResearch envRunFail dbQueued).db.job.status ≠ JobStatus.failed
      ∧ (executeResearch envRunFail dbQueued).db.company.status ≠ CompanyStatus.failed := by
  refine ⟨rfl, rfl, ?_, ?_⟩ <;> decide

/-- C7 witness: in the all-success environment envOk over dbQueued the
job and company finish COMPLETED, the result is the fully fused record,
and exactly one upsert happened. -/
theorem executeResearch_outcomes_witness :
    (executeResearch envOk dbQueued).db.job.status = JobStatus.completed
      ∧ (executeResearch envOk dbQueued).db.company.status = CompanyStatus.completed
      ∧ (executeResearch envOk dbQueued).upsertCount = 1
      ∧ (executeResearch envOk dbQueued).db.researchResult
        = some (mkResearchResultRecord dbQueued.company.id (fullIntel envOk dbQueued)) := by
  have h := (executeResearch_outcomes envOk dbQueued "unused").2.2.2.2 rfl rfl rfl rfl
  exact ⟨h.1, h.2.1, h.2.2.2.1, h.2.2.2.2⟩

/-- C3: the sequencer never records any invocation outcome with the
evolution engine: on every path of executeResearch, over every
environment and every initial state, the count of invocations recorded
with the evolution engine is 0, although the stages themselves run; the
logging functions of the evolution engine have no call site in the
orchestrator or the agents. -/
theorem executeResearch_never_records_evolution (env : ExecEnv) (db : Db) :
    (executeResearch env db).evolutionRecordCount = 0 := by
  unfold executeResearch
  dsimp only
  repeat' split
  all_goals rfl

end Deepagent
